import Mathlib

/-!
Shallow embedding of the dns_r repository (src/main.rs and src/dns.rs), a toy
DNS responder.  Machine integers are modelled as Nat, reduced modulo 2^8 or
2^16 exactly where Rust's fixed-width semantics matter; Rust String values are
modelled as List Char, with String::into_bytes and str::len given by an
explicit UTF-8 encoder.  The DnsHeader type and its serialize_to_bytes method
are textually identical in main.rs and dns.rs, so they are embedded once; the
two QuestionSection types differ between the files and are embedded
separately (QuestionSection for main.rs, Dns.QuestionSection for dns.rs).
-/

/-- Big-endian byte pair of a 16-bit value, as in Rust u16::to_be_bytes.
For n < 2^16 this is [n >> 8, n & 0xFF]; the outer reductions mod 256 record
the u16 bound explicitly. -/
def be16 (n : Nat) : List Nat := [(n / 256) % 256, n % 256]

/-- Rust cast from bool to u8. -/
def b2u8 (b : Bool) : Nat := if b then 1 else 0

/-- UTF-8 encoding of one Unicode scalar value (Rust String data is UTF-8). -/
def utf8CharBytes (c : Char) : List Nat :=
  let n := c.toNat
  if n < 128 then [n]
  else if n < 2048 then [192 + n / 64, 128 + n % 64]
  else if n < 65536 then [224 + n / 4096, 128 + (n / 64) % 64, 128 + n % 64]
  else [240 + n / 262144, 128 + (n / 4096) % 64, 128 + (n / 64) % 64, 128 + n % 64]

/-- Bytes of a Rust String (String::into_bytes / str::as_bytes). -/
def utf8Bytes (s : List Char) : List Nat := (s.map utf8CharBytes).flatten

/-- Rust str::len: the UTF-8 byte length of a string. -/
def utf8Len (s : List Char) : Nat := (utf8Bytes s).length

/-- Lower-case hexadecimal digit character, as produced by Rust's {:x}. -/
def hexDigitChar (n : Nat) : Char :=
  if n < 10 then Char.ofNat (48 + n) else Char.ofNat (87 + n)

/-- Fuel-indexed hexadecimal rendering; with fuel larger than the number of
digits it yields the usual most-significant-first digit list. -/
def toHexAux : Nat → Nat → List Char
  | 0, _ => []
  | fuel + 1, n =>
    if n < 16 then [hexDigitChar n]
    else toHexAux fuel (n / 16) ++ [hexDigitChar (n % 16)]

/-- Rust format string {:x}: minimal-width lower-case hex (fuel n + 1 always
suffices, since a number has at most as many hex digits as its value). -/
def toHex (n : Nat) : List Char := toHexAux (n + 1) n

/-- Rust format string {:02x}: lower-case hex zero-padded to width two. -/
def hexPad2 (n : Nat) : List Char :=
  if (toHex n).length < 2 then List.replicate (2 - (toHex n).length) '0' ++ toHex n
  else toHex n

/-- Rust str::split('.'): splits at every dot; empty input gives one empty
piece, and consecutive, leading or trailing dots give empty pieces. -/
def splitDot : List Char → List (List Char)
  | [] => [[]]
  | c :: cs =>
    if c = '.' then [] :: splitDot cs
    else
      match splitDot cs with
      | [] => [[c]]
      | l :: ls => (c :: l) :: ls

/-- The DnsHeader struct (identical in src/main.rs and src/dns.rs).
The u16 fields and the u8 opcode / response_code fields are Nat here; the
serializer reduces them modulo 256 / 65536 exactly as the Rust types bound
them. -/
structure DnsHeader where
  id : Nat
  query_indicator : Bool
  opcode : Nat
  authoritative_answer : Bool
  truncation : Bool
  recursion_desired : Bool
  recursion_available : Bool
  reserved : Bool
  authentic_data : Bool
  check_disabled : Bool
  response_code : Nat
  question_count : Nat
  answer_record_count : Nat
  authority_record_count : Nat
  additional_record_count : Nat
deriving DecidableEq

/-- DnsHeader::new : the all-zero / all-false default header. -/
def DnsHeader.new : DnsHeader :=
  ⟨0, false, 0, false, false, false, false, false, false, false, 0, 0, 0, 0, 0⟩

/-- DnsHeader::serialize_to_bytes.  Byte 2 packs QR, opcode, AA, TC, RD by
shift-and-OR; in Rust `self.opcode << 3` is a u8 shift whose high bits are
discarded, embedded here as reduction mod 256 after the shift.  Byte 3 packs
RA, Z, AD, CD and ORs in response_code unshifted. -/
def DnsHeader.serialize_to_bytes (h : DnsHeader) : List Nat :=
  be16 h.id
    ++ [(b2u8 h.query_indicator <<< 7) |||
        (((h.opcode % 256) <<< 3) % 256) |||
        (b2u8 h.authoritative_answer <<< 2) |||
        (b2u8 h.truncation <<< 1) |||
        b2u8 h.recursion_desired]
    ++ [(b2u8 h.recursion_available <<< 7) |||
        (b2u8 h.reserved <<< 6) |||
        (b2u8 h.authentic_data <<< 5) |||
        (b2u8 h.check_disabled <<< 4) |||
        (h.response_code % 256)]
    ++ be16 h.question_count
    ++ be16 h.answer_record_count
    ++ be16 h.authority_record_count
    ++ be16 h.additional_record_count

/-- The QuestionSection struct of src/main.rs: a domain name and a record
type (main.rs has no class field). -/
structure QuestionSection where
  name : List Char
  record_type : Nat
deriving DecidableEq

/-- QuestionSection::new of src/main.rs. -/
def QuestionSection.new : QuestionSection := ⟨[], 0⟩

/-- QuestionSection::to_label_sequence of src/main.rs: split the name on '.',
and for each label append the text produced by format!("\\x{:x}", len) — a
TEXTUAL escape, backslash 'x' then unpadded hex digits — followed by the
label itself; finally append the four characters of the literal "\\x00". -/
def QuestionSection.to_label_sequence (q : QuestionSection) : List Char :=
  (splitDot q.name).foldl
    (fun acc l => acc ++ ('\\' :: 'x' :: toHex (utf8Len l)) ++ l) []
    ++ ['\\', 'x', '0', '0']

/-- The ResourceRecord struct of src/dns.rs. -/
structure Dns.ResourceRecord where
  name : List Char
  record_type : Nat
  «class» : Nat
  ttl : Nat
  record_data_length : Nat
  record_data : List Nat
deriving DecidableEq

/-- ResourceRecord::new of src/dns.rs. -/
def Dns.ResourceRecord.new : Dns.ResourceRecord := ⟨[], 1, 0, 0, 0, []⟩

/-- The QuestionSection struct of src/dns.rs: wraps a ResourceRecord. -/
structure Dns.QuestionSection where
  resource_record : Dns.ResourceRecord
deriving DecidableEq

/-- QuestionSection::new of src/dns.rs. -/
def Dns.QuestionSection.new : Dns.QuestionSection := ⟨Dns.ResourceRecord.new⟩

/-- QuestionSection::to_label_sequence of src/dns.rs: like the main.rs
version but the length prefix text comes from format!("\\x{:02x}", len),
i.e. the hex digits are zero-padded to width two. -/
def Dns.QuestionSection.to_label_sequence (q : Dns.QuestionSection) : List Char :=
  (splitDot q.resource_record.name).foldl
    (fun acc l => acc ++ ('\\' :: 'x' :: hexPad2 (utf8Len l)) ++ l) []
    ++ ['\\', 'x', '0', '0']

/-- QuestionSection::serialize_to_bytes of src/dns.rs: the bytes of the name
string exactly as stored (no label encoding is applied here), then the
record type and the class, each as u16 big-endian bytes. -/
def Dns.QuestionSection.serialize_to_bytes (q : Dns.QuestionSection) : List Nat :=
  utf8Bytes q.resource_record.name
    ++ be16 q.resource_record.record_type
    ++ be16 q.resource_record.«class»

/-- The header main() builds: DnsHeader::new() then id = 1234,
query_indicator = true, question_count = 1. -/
def default_response : DnsHeader :=
  { DnsHeader.new with id := 1234, query_indicator := true, question_count := 1 }

/-- The question main() builds (and never serializes): QuestionSection::new()
then record_type = 1. -/
def main_question : QuestionSection :=
  { QuestionSection.new with record_type := 1 }

/-- The bytes main() actually sends: exactly
default_response.serialize_to_bytes() — the question is never appended. -/
def serialized_response : List Nat := default_response.serialize_to_bytes

/-- One receive/encode/send cycle of main(), as a function of the received
datagram's bytes and its source address: main() never reads the received
bytes, and sends serialized_response back to the source address. -/
def mainCycle {α : Type} (_received : List Nat) (source_address : α) :
    List Nat × α :=
  (serialized_response, source_address)

/-- The dns.rs question for the spec's google.com scenario: name
"google.com", record type 1, class 1. -/
def google_question : Dns.QuestionSection :=
  ⟨{ Dns.ResourceRecord.new with
      name := (("google.com").data), record_type := 1, «class» := 1 }⟩

/-- Rendering a nonzero amount of fuel always yields at least one digit. -/
theorem toHexAux_ne_nil (fuel n : Nat) (h : 0 < fuel) : toHexAux fuel n ≠ [] := by
  cases fuel with
  | zero => omega
  | succ f =>
    unfold toHexAux
    split
    · simp
    · simp

/-- One unfolding step of the fuel-indexed hex rendering. -/
theorem toHexAux_succ (fuel n : Nat) :
    toHexAux (fuel + 1) n
      = if n < 16 then [hexDigitChar n]
        else toHexAux fuel (n / 16) ++ [hexDigitChar (n % 16)] := rfl

/-- Numbers of at least 16 render to at least two hex digits. -/
theorem toHex_length_ge_two (n : Nat) (h : 16 ≤ n) : 2 ≤ (toHex n).length := by
  have e : toHex n = toHexAux n (n / 16) ++ [hexDigitChar (n % 16)] := by
    show toHexAux (n + 1) n = _
    rw [toHexAux_succ, if_neg (by omega)]
  have h1 : toHexAux n (n / 16) ≠ [] := toHexAux_ne_nil n (n / 16) (by omega)
  have h2 : 0 < (toHexAux n (n / 16)).length := List.length_pos.mpr h1
  rw [e, List.length_append]
  simp only [List.length_cons, List.length_nil]
  omega

/-- Zero-padding to width two changes nothing once the value is at least 16. -/
theorem hexPad2_eq_toHex (n : Nat) (h : 16 ≤ n) : hexPad2 n = toHex n := by
  unfold hexPad2
  rw [if_neg]
  have := toHex_length_ge_two n h
  omega

/-- The two per-label folds (main.rs with {:x}, dns.rs with {:02x}) agree on
any label list whose labels all have byte length at least 16. -/
theorem labelSeq_foldl_congr (ls : List (List Char)) (acc : List Char)
    (h : ∀ l ∈ ls, 16 ≤ utf8Len l) :
    ls.foldl (fun acc l => acc ++ ('\\' :: 'x' :: toHex (utf8Len l)) ++ l) acc
      = ls.foldl (fun acc l => acc ++ ('\\' :: 'x' :: hexPad2 (utf8Len l)) ++ l) acc := by
  induction ls generalizing acc with
  | nil => rfl
  | cons l ls ih =>
    simp only [List.foldl_cons]
    rw [hexPad2_eq_toHex (utf8Len l) (h l (by simp))]
    exact ih _ (fun x hx => h x (by simp [hx]))

/-- Byte 2 of the header: when the opcode fits in 4 bits, the shift-and-OR
packing equals the additive placement of each field in its own bit range. -/
theorem byte2_eq (q aa tc rd : Bool) (o : Nat) (ho : o < 16) :
    ((b2u8 q <<< 7) ||| (((o % 256) <<< 3) % 256) ||| (b2u8 aa <<< 2) |||
        (b2u8 tc <<< 1) ||| b2u8 rd)
      = 128 * b2u8 q + 8 * o + 4 * b2u8 aa + 2 * b2u8 tc + b2u8 rd := by
  cases q <;> cases aa <;> cases tc <;> cases rd <;> (interval_cases o <;> decide)

/-- Byte 3 of the header: when the response code fits in 4 bits, the
shift-and-OR packing equals the additive placement of each field. -/
theorem byte3_eq (ra z ad cd : Bool) (r : Nat) (hr : r < 16) :
    ((b2u8 ra <<< 7) ||| (b2u8 z <<< 6) ||| (b2u8 ad <<< 5) ||| (b2u8 cd <<< 4) |||
        (r % 256))
      = 128 * b2u8 ra + 64 * b2u8 z + 32 * b2u8 ad + 16 * b2u8 cd + r := by
  cases ra <;> cases z <;> cases ad <;> cases cd <;> (interval_cases r <;> decide)

/-- C3: serializing the header with id 1234, query/response indicator set,
question count 1 and every other field zero yields exactly the twelve bytes
04 D2 80 00 00 01 00 00 00 00 00 00. -/
theorem c3_header_serialization :
    ({ DnsHeader.new with
        id := 1234, query_indicator := true,
        question_count := 1 } : DnsHeader).serialize_to_bytes
      = [0x04, 0xD2, 0x80, 0x00, 0x00, 0x01, 0x00, 0x00, 0x00, 0x00, 0x00, 0x00] := by
  decide

/-- C5: for every DnsHeader value, whatever its fields hold,
serialize_to_bytes returns a list of length exactly 12. -/
theorem c5_serialize_length (h : DnsHeader) :
    h.serialize_to_bytes.length = 12 := by
  rfl

/-- C1: evaluating the code at the spec's input "google.com": both encoders
return TEXTUAL escape strings — dns.rs yields the 21 characters of
"\x06google\x03com\x00" and main.rs the 19 characters of
"\x6google\x3com\x00" — and the byte content of the dns.rs result is not the
12 raw bytes 06 'g' 'o' 'o' 'g' 'l' 'e' 03 'c' 'o' 'm' 00 the claim
requires. -/
theorem c1_google_encoding_is_textual :
    google_question.to_label_sequence = (("\\x06google\\x03com\\x00").data)
    ∧ (QuestionSection.mk (("google.com").data) 0).to_label_sequence
        = (("\\x6google\\x3com\\x00").data)
    ∧ utf8Bytes google_question.to_label_sequence
        ≠ [0x06, 103, 111, 111, 103, 108, 101, 0x03, 99, 111, 109, 0x00] := by
  decide

/-- C2: evaluating the code on any received datagram: the outbound datagram
is exactly the 12 serialized header bytes — the question section is never
serialized or appended, so the packet is not 30 bytes. -/
theorem c2_outbound_is_header_only :
    serialized_response
      = [0x04, 0xD2, 0x80, 0x00, 0x00, 0x01, 0x00, 0x00, 0x00, 0x00, 0x00, 0x00]
    ∧ serialized_response.length = 12
    ∧ serialized_response.length ≠ 30 := by
  decide

/-- C4 counterexample: a 64-byte label does not fail with a label-too-long
error; the encoder proceeds and returns the complete textual encoding with
length prefix "\x40". -/
theorem c4_label64_encoded_not_rejected :
    (QuestionSection.mk (List.replicate 64 'a') 0).to_label_sequence
      = ('\\' :: 'x' :: '4' :: '0' :: List.replicate 64 'a') ++ ['\\', 'x', '0', '0'] := by
  decide

/-- C4 amended: the encoder performs no validation at all and never fails:
a 63-byte label is encoded with prefix "\x3f", the consecutive-delimiter
input "a..b" is encoded with an empty label carried as prefix "\x1a\x0\x1b",
and the empty input is encoded as "\x0\x00"; in every case the full
(textual) encoding is emitted with nothing truncated and no error value. -/
theorem c4_no_validation :
    (QuestionSection.mk (List.replicate 63 'a') 0).to_label_sequence
      = ('\\' :: 'x' :: '3' :: 'f' :: List.replicate 63 'a') ++ ['\\', 'x', '0', '0']
    ∧ (QuestionSection.mk (("a..b").data) 0).to_label_sequence
        = (("\\x1a\\x0\\x1b\\x00").data)
    ∧ (QuestionSection.mk [] 0).to_label_sequence = (("\\x0\\x00").data) := by
  decide

/-- C6 counterexample: opcode is a full u8, not 4 bits; with opcode 16 and
the query indicator false, byte 2 of the serialization is identical to that
of the header with opcode 0 and the query indicator true — the shifted
opcode lands on the QR bit and the two distinct headers serialize to the
same 12 bytes. -/
theorem c6_opcode16_corrupts_qr :
    ({ DnsHeader.new with opcode := 16 } : DnsHeader).serialize_to_bytes
      = ({ DnsHeader.new with query_indicator := true } : DnsHeader).serialize_to_bytes
    ∧ ({ DnsHeader.new with opcode := 16 } : DnsHeader).query_indicator
        ≠ ({ DnsHeader.new with query_indicator := true } : DnsHeader).query_indicator := by
  decide

/-- C6 amended: serialization is total (no failure mode), and provided the
opcode and response code actually fit their 4-bit wire fields, the
shift-and-OR packing places every flag in its own bit range without
corruption: each packed byte equals the sum of its fields weighted by
disjoint powers of two. -/
theorem c6_packing_correct_when_bounded (h : DnsHeader)
    (ho : h.opcode < 16) (hr : h.response_code < 16) :
    h.serialize_to_bytes
      = be16 h.id
        ++ [128 * b2u8 h.query_indicator + 8 * h.opcode
            + 4 * b2u8 h.authoritative_answer + 2 * b2u8 h.truncation
            + b2u8 h.recursion_desired]
        ++ [128 * b2u8 h.recursion_available + 64 * b2u8 h.reserved
            + 32 * b2u8 h.authentic_data + 16 * b2u8 h.check_disabled
            + h.response_code]
        ++ be16 h.question_count ++ be16 h.answer_record_count
        ++ be16 h.authority_record_count ++ be16 h.additional_record_count := by
  unfold DnsHeader.serialize_to_bytes
  rw [byte2_eq h.query_indicator h.authoritative_answer h.truncation
        h.recursion_desired h.opcode ho,
      byte3_eq h.recursion_available h.reserved h.authentic_data
        h.check_disabled h.response_code hr]

/-- C6 witness: the bounded-packing theorem applied to the concrete header
with opcode 5 and response code 3. -/
theorem c6_packing_witness :
    ({ DnsHeader.new with opcode := 5, response_code := 3 } : DnsHeader).serialize_to_bytes
      = be16 0
        ++ [128 * b2u8 false + 8 * 5 + 4 * b2u8 false + 2 * b2u8 false + b2u8 false]
        ++ [128 * b2u8 false + 64 * b2u8 false + 32 * b2u8 false + 16 * b2u8 false + 3]
        ++ be16 0 ++ be16 0 ++ be16 0 ++ be16 0 :=
  c6_packing_correct_when_bounded _ (by decide) (by decide)

/-- C7: evaluating the code: the only assembly path emits the serialized
header — which declares a question count of one in wire bytes 4 and 5 —
with zero question byte blocks appended (the packet ends at byte 12); the
mismatch is emitted silently, not rejected. -/
theorem c7_mismatch_emitted :
    default_response.question_count = 1
    ∧ serialized_response.length = 12
    ∧ serialized_response[4]? = some 0
    ∧ serialized_response[5]? = some 1 := by
  decide

/-- C7 amended: no count-consistency check exists anywhere: the full
receive/encode/send cycle sends exactly the header bytes of a header whose
question count is one, with no question bytes following them. -/
theorem c7_no_count_check :
    mainCycle ([] : List Nat) 0 = (default_response.serialize_to_bytes, 0)
    ∧ default_response.question_count = 1
    ∧ default_response.serialize_to_bytes.length = 12 := by
  decide

/-- C8 counterexample: at the question with name "google.com", type 1 and
class 1, serialize_to_bytes emits the UTF-8 bytes of the stored name string
as-is — it does not equal the bytes of the name encoder's output followed
by type and class, nor the raw label encoding 06 'g'..'m' 00 followed by
type and class that the claim requires. -/
theorem c8_name_not_encoded :
    google_question.serialize_to_bytes
      = utf8Bytes (("google.com").data) ++ [0, 1] ++ [0, 1]
    ∧ google_question.serialize_to_bytes
        ≠ utf8Bytes google_question.to_label_sequence ++ [0, 1] ++ [0, 1]
    ∧ google_question.serialize_to_bytes
        ≠ [6, 103, 111, 111, 103, 108, 101, 3, 99, 111, 109, 0, 0, 1, 0, 1] := by
  decide

/-- C8 amended: serialize_to_bytes returns the UTF-8 bytes of the name field
exactly as stored (no encoder is invoked), then the record type and the
class as big-endian 16-bit byte pairs, and its length is always the name's
byte length plus four; it has no failure mode. -/
theorem c8_layout (q : Dns.QuestionSection) :
    q.serialize_to_bytes
      = utf8Bytes q.resource_record.name
        ++ [q.resource_record.record_type / 256 % 256,
            q.resource_record.record_type % 256,
            q.resource_record.«class» / 256 % 256,
            q.resource_record.«class» % 256]
    ∧ q.serialize_to_bytes.length = utf8Len q.resource_record.name + 4 := by
  constructor
  · simp [Dns.QuestionSection.serialize_to_bytes, be16, List.append_assoc]
  · simp [Dns.QuestionSection.serialize_to_bytes, be16, utf8Len, List.length_append]

/-- C9: the outbound bytes are independent of the content of the inbound
datagram: any two received datagram contents with the same source address
produce byte-identical responses. -/
theorem c9_response_independent {α : Type} (d1 d2 : List Nat) (a : α) :
    (mainCycle d1 a).1 = (mainCycle d2 a).1 := rfl

/-- C10 counterexample: on "google.com" the two encoders disagree: main.rs
formats length prefixes with {:x} (unpadded, "\x6") and dns.rs with {:02x}
(zero-padded, "\x06"), so the output strings differ. -/
theorem c10_encoders_differ_google :
    (QuestionSection.mk (("google.com").data) 0).to_label_sequence
      ≠ (Dns.QuestionSection.mk
          { Dns.ResourceRecord.new with name := (("google.com").data) }).to_label_sequence := by
  decide

/-- C10 amended: the two encoders agree exactly on the names whose labels
all have byte length at least 16, where the unpadded and the zero-padded
hex rendering coincide; for any such name the outputs are identical. -/
theorem c10_encoders_agree_wide_labels (name : List Char)
    (h : ∀ l ∈ splitDot name, 16 ≤ utf8Len l) :
    (QuestionSection.mk name 0).to_label_sequence
      = (Dns.QuestionSection.mk
          { Dns.ResourceRecord.new with name := name }).to_label_sequence := by
  unfold QuestionSection.to_label_sequence Dns.QuestionSection.to_label_sequence
  rw [labelSeq_foldl_congr (splitDot name) [] h]

/-- C10 witness: the agreement theorem applied to the single-label name of
sixteen letters a. -/
theorem c10_agree_witness :
    (QuestionSection.mk (List.replicate 16 'a') 0).to_label_sequence
      = (Dns.QuestionSection.mk
          { Dns.ResourceRecord.new with name := List.replicate 16 'a' }).to_label_sequence :=
  c10_encoders_agree_wide_labels (List.replicate 16 'a') (by decide)
